import Mathlib

/-!
Shallow embedding of the StrikingDB storage engine (Rust sources under
`src/`), used to check the natural-language specification against the
code.  Bytes are modelled as `Nat`, machine integers as `Nat` (all the
arithmetic below stays far from 2^64, and the source's `u64`/`u16`
ranges are noted where they matter).  Rust `Result` values are modelled
with `Outcome`, whose extra `panicked` constructor models a failed
`assert!`/`panic!` in the source.
-/

namespace StrikingDB

/-! ## Constants (src/lib.rs) -/

/-- PAGE_SIZE from src/lib.rs: 4 KiB. -/
def PAGE_SIZE : Nat := 4 * 1024

/-- TRIM_SIZE from src/lib.rs: 256 KiB. -/
def TRIM_SIZE : Nat := 256 * 1024

/-- MAX_KEY_LEN from src/lib.rs.  The value written in the source is
`128 * 1024 * 1024` (128 MiB) even though its doc comment and the
trailing comment both say "128 KiB". -/
def MAX_KEY_LEN : Nat := 128 * 1024 * 1024

/-- MAX_VAL_LEN from src/lib.rs: `512 * 1024 * 1024 * 1024`. -/
def MAX_VAL_LEN : Nat := 512 * 1024 * 1024 * 1024

/-- MIN_STRANDS from src/lib.rs ("The minimum number of strands that a
datastore can be created with"). -/
def MIN_STRANDS : Nat := 2

/-! ## Errors (src/error.rs) -/

/-- Error from src/error.rs.  `BadArgument` carries a static message in
the source and `Io` an optional cause; both payloads are dropped here
since no claim inspects them. -/
inductive Error where
  | FileType
  | Corrupt
  | BadArgument
  | IncompatibleVersion
  | OutOfSpace
  | ItemExists
  | ItemNotFound
  | InvalidKey
  | InvalidValue
  | Unimplemented
  | Network
  | Io
  deriving Repr, DecidableEq

/-- Result of running a fragment of the Rust code: `ok`, an `Err(e)`
return, or a failed `assert!`/`panic!` (`panicked`). -/
inductive Outcome (α : Type) where
  | ok : α → Outcome α
  | err : Error → Outcome α
  | panicked : Outcome α
  deriving Repr, DecidableEq

/-! ## Key/value validation (src/store.rs, `Store::verify_key` and
`Store::verify_val`) -/

/-- Store::verify_key (src/store.rs 81-88):
`if key.is_empty() || key.len() > MAX_KEY_LEN { Err(InvalidKey) }`
(`is_empty` is stated as equality with the empty list). -/
def verify_key (key : List Nat) : Outcome Unit :=
  if key = [] ∨ key.length > MAX_KEY_LEN then
    Outcome.err Error.InvalidKey
  else
    Outcome.ok ()

/-- Store::verify_val (src/store.rs 90-97):
`if val.len() > MAX_VAL_LEN { Err(InvalidValue) }`. -/
def verify_val (val : List Nat) : Outcome Unit :=
  if val.length > MAX_VAL_LEN then
    Outcome.err Error.InvalidValue
  else
    Outcome.ok ()

/-! ## Device bounds checks (src/device/mod.rs) -/

/-- check_read (src/device/mod.rs 46-52); the three `assert!` calls in
source order, a failed one modelled as `panicked`. -/
def check_read (devCapacity off len : Nat) : Outcome Unit :=
  if off % PAGE_SIZE ≠ 0 then Outcome.panicked
  else if len % PAGE_SIZE ≠ 0 then Outcome.panicked
  else if ¬ (off + len < devCapacity) then Outcome.panicked
  else Outcome.ok ()

/-- check_write (src/device/mod.rs 54-60); same checks as `check_read`. -/
def check_write (devCapacity off len : Nat) : Outcome Unit :=
  if off % PAGE_SIZE ≠ 0 then Outcome.panicked
  else if len % PAGE_SIZE ≠ 0 then Outcome.panicked
  else if ¬ (off + len < devCapacity) then Outcome.panicked
  else Outcome.ok ()

/-- check_trim (src/device/mod.rs 62-67): offsets and lengths must be
TRIM_SIZE multiples and the source asserts `off + len < capacity`
(strict). -/
def check_trim (devCapacity off len : Nat) : Outcome Unit :=
  if off % TRIM_SIZE ≠ 0 then Outcome.panicked
  else if len % TRIM_SIZE ≠ 0 then Outcome.panicked
  else if ¬ (off + len < devCapacity) then Outcome.panicked
  else Outcome.ok ()

/-- The trim issued by Truncate mode (src/volume.rs 140-142):
`device.trim(0, device.capacity())`, whose first step on the memory
device is `check_trim` (src/device/memory.rs 75-77). -/
def truncateModeTrim (devCapacity : Nat) : Outcome Unit :=
  check_trim devCapacity 0 devCapacity

/-! ## Strand (src/strand.rs) -/

/-- Strand (src/strand.rs 29-37).  `data` is the strand's byte content,
strand-relative and sparse: later `(offset, byte)` entries are shadowed
by earlier ones, and unwritten positions read as 0 (the memory device
zero-initialises its buffer, src/device/memory.rs 30-33).  The device
back-reference is dropped; per-strand `stats` are not modelled. -/
structure Strand where
  id : Nat
  start : Nat
  capacity : Nat
  offset : Nat
  data : List (Nat × Nat)
  deriving Repr, DecidableEq

/-- Strand::contains_ptr (src/strand.rs 126-129):
`self.start <= ptr && ptr <= self.start + self.capacity`. -/
def Strand.contains_ptr (s : Strand) (ptr : Nat) : Bool :=
  decide (s.start ≤ ptr) && decide (ptr ≤ s.start + s.capacity)

/-- The four `assert!` calls at the top of Strand::new
(src/strand.rs 47-61), in source order; `true` means none fires.  The
third is `start + capacity >= device.capacity()` as written in the
source (its message reads "Strand extends off the boundary of the
device"). -/
def Strand.newAsserts (devCapacity start capacity : Nat) : Bool :=
  decide (start % PAGE_SIZE = 0) &&
  decide (capacity % PAGE_SIZE = 0) &&
  decide (start + capacity ≥ devCapacity) &&
  decide (capacity > PAGE_SIZE)

/-! ## Volume strand partitioning (src/volume.rs 144-163) -/

/-- utils::align (src/utils.rs 26-29): round down to a PAGE_SIZE
multiple. -/
def align (off : Nat) : Nat := off / PAGE_SIZE * PAGE_SIZE

/-- One strand's slice of the device: absolute start offset and
length. -/
structure StrandRegion where
  off : Nat
  len : Nat
  deriving Repr, DecidableEq

/-- The strand-partition loop of Volume::open (src/volume.rs 144-163):
`size = align(capacity / strands)`, strand `i` gets
`off = i * size + PAGE_SIZE` and `len = min(size, left)` with `left`
starting at `device.capacity()` and decreasing by each `len`. -/
def volumeRegions (capacity strands : Nat) : List StrandRegion :=
  let size := align (capacity / strands)
  ((List.range strands).foldl
    (fun acc i =>
      let off := i * size + PAGE_SIZE
      let len := min size acc.2
      (acc.1 ++ [StrandRegion.mk off len], acc.2 - len))
    (([] : List StrandRegion), capacity)).1

/-! ## Strand-count validation (src/volume.rs and src/serial/header.rs) -/

/-- OpenMode (src/options.rs). -/
inductive OpenMode where
  | Read
  | Create
  | Truncate
  deriving Repr, DecidableEq

/-- OpenOptions (src/options.rs). -/
structure OpenOptions where
  mode : OpenMode
  strands : Option Nat
  read_cache : Option Nat
  reindex : Bool
  deriving Repr, DecidableEq

/-- VolumeOpen (src/volume.rs 39-44). -/
structure VolumeOpen where
  strands : Nat
  state_ptr : Option Nat
  read_disk : Bool
  deriving Repr, DecidableEq

/-- VolumeOpen::new (src/volume.rs 47-74).  `options.strands` of
`Some(x)` is rejected with BadArgument when `x <= MIN_STRANDS`; with
`None` the count is `8 * cores * capacity / GB`.  The two `assert!`
calls that follow (count nonzero, count fits in u16) are modelled as
`panicked`. -/
def VolumeOpen.new (devCapacity cores : Nat) (options : OpenOptions) :
    Outcome VolumeOpen :=
  let gb : Nat := 1024 * 1024 * 1024
  match options.strands with
  | some x =>
      if x ≤ MIN_STRANDS then
        Outcome.err Error.BadArgument
      else if x = 0 then Outcome.panicked
      else if x > 65535 then Outcome.panicked
      else Outcome.ok ⟨x, none, false⟩
  | none =>
      let count := 8 * cores * devCapacity / gb
      if count = 0 then Outcome.panicked
      else if count > 65535 then Outcome.panicked
      else Outcome.ok ⟨count, none, false⟩

/-- The fixed fields of the volume header (spec §6; the serialized
capnp layout lives in the external capnp library and the generated
`serial_capnp` module, so the header is modelled at field level). -/
structure VolumeHeaderData where
  signature : Nat
  version_major : Nat
  version_minor : Nat
  version_patch : Nat
  strands : Nat
  state_ptr : Nat
  deriving Repr, DecidableEq

/-- VOLUME_MAGIC: the volume-header signature constant (spec §6; the
value itself is generated into `serial_capnp`, which is not under
`src/`). -/
def VOLUME_MAGIC : Nat := 0x864d26e37a418b16

/-- The validation performed by VolumeHeader::read
(src/serial/header.rs 74-97) once the page has been decoded to fields:
bad signature is Corrupt, a `version_major` mismatch is
IncompatibleVersion, and `strands <= MIN_STRANDS` is Corrupt. -/
def VolumeHeader.readCheck (currentMajor : Nat) (h : VolumeHeaderData) :
    Outcome VolumeHeaderData :=
  if h.signature ≠ VOLUME_MAGIC then Outcome.err Error.Corrupt
  else if h.version_major ≠ currentMajor then Outcome.err Error.IncompatibleVersion
  else if h.strands ≤ MIN_STRANDS then Outcome.err Error.Corrupt
  else Outcome.ok h

/-! ## DeletedSet (src/deleted.rs) -/

/-- Deleted::put (src/deleted.rs 34-40).  `BTreeSet::insert` returns
true exactly when the value was newly inserted; the source then runs
`assert!(!exists, "Deleted item already tracked")` on that return
value.  The set is a duplicate-free list. -/
def Deleted.put (set : List Nat) (value : Nat) : Outcome (List Nat) :=
  let freshlyInserted := ! set.contains value
  let newSet := if set.contains value then set else set ++ [value]
  if freshlyInserted then Outcome.panicked else Outcome.ok newSet

/-! ## Sparse strand bytes

A strand's content is a sparse association of strand-relative offsets
to bytes; unwritten positions read as 0 (the memory device's buffer is
zero-initialised, src/device/memory.rs 30-33). -/

/-- The byte at strand-relative position `i`. -/
def byteAt (data : List (Nat × Nat)) (i : Nat) : Nat :=
  match data.find? (fun p => p.1 = i) with
  | some p => p.2
  | none => 0

/-- Write the bytes `bs` starting at strand-relative offset `off`. -/
def storeBytes (data : List (Nat × Nat)) (off : Nat) (bs : List Nat) :
    List (Nat × Nat) :=
  (bs.enum.map (fun p => (off + p.1, p.2))) ++ data

/-- Read `len` bytes starting at strand-relative offset `off`. -/
def readBytes (data : List (Nat × Nat)) (off len : Nat) : List Nat :=
  (List.range len).map (fun i => byteAt data (off + i))

/-! ## Item codec

The source serializes items with the external capnp packed codec
(`serialize_packed` plus the generated `serial_capnp` module), which is
not part of this repository. -/

/-- Little-endian 8-byte encoding of `n` (values < 2^64 in source). -/
def le64 (n : Nat) : List Nat :=
  (List.range 8).map (fun i => n / 256 ^ i % 256)

/-- Little-endian decoding of the first 8 bytes. -/
def de64 (bs : List Nat) : Nat :=
  ((bs.take 8).enum.foldl (fun acc p => acc + p.2 * 256 ^ p.1) 0)

/-- Modelled from the spec: the item record codec (§4.8, §6; the source
delegates to the external capnp packed serialization).  A
self-describing framed record holding two byte strings, key then value,
each preceded by its explicit length. -/
def encodeItem (key val : List Nat) : List Nat :=
  le64 key.length ++ key ++ le64 val.length ++ val

/-- Modelled from the spec: streaming decode of an item record from
strand bytes at strand-relative offset `off` (the inverse of
`encodeItem`; a StrandReader decodes forward-only from `ptr`). -/
def decodeItemAt (data : List (Nat × Nat)) (off : Nat) :
    List Nat × List Nat :=
  let klen := de64 (readBytes data off 8)
  let key := readBytes data (off + 8) klen
  let vlen := de64 (readBytes data (off + 8 + klen) 8)
  let val := readBytes data (off + 16 + klen) vlen
  (key, val)

/-! ## StrandWriter (src/serial/io.rs 141-249) -/

/-- StrandWriter's own state (src/serial/io.rs 141-157): a
strand-relative cursor starting at the strand's append offset, and the
`update_offset` flag (default true). -/
structure StrandWriter where
  cursor : Nat
  update_offset : Bool
  deriving Repr, DecidableEq

/-- StrandWriter::new (src/serial/io.rs 148-157). -/
def StrandWriter.new (s : Strand) : StrandWriter :=
  { cursor := s.offset, update_offset := true }

/-- StrandWriter::get_pointer (src/serial/io.rs 159-161):
`self.cursor + self.strand.start()`. -/
def StrandWriter.get_pointer (s : Strand) (w : StrandWriter) : Nat :=
  w.cursor + s.start

/-- The net effect of `serialize_packed::write_message` through the
StrandWriter's `Write::write` loop followed by a flush
(src/serial/io.rs 172-242): the message bytes land at the cursor, the
cursor advances by their length, and the strand's append offset
advances too when `update_offset` is set.  A write larger than
`strand.remaining()` (capacity − offset) is rejected with OutOfSpace.
The erase-block buffering (read block, copy, flush when full) preserves
surrounding bytes and is absorbed into `storeBytes`. -/
def StrandWriter.write_message (s : Strand) (w : StrandWriter)
    (bs : List Nat) : Outcome (Strand × StrandWriter) :=
  if bs.length > s.capacity - s.offset then
    Outcome.err Error.OutOfSpace
  else
    Outcome.ok
      ({ s with data := storeBytes s.data w.cursor bs,
                offset := if w.update_offset then s.offset + bs.length
                          else s.offset },
       { w with cursor := w.cursor + bs.length })

/-- WriteItem::write (src/serial/item.rs 146-153): build a StrandWriter,
serialize the record, `write_metadata()` and `flush()`, then return
`writer.get_pointer()` — queried AFTER the serialization.
`write_metadata` rewrites the strand header page (strand-relative page
0) and moves no cursor, so it is omitted from the byte model. -/
def WriteItem.write (s : Strand) (key val : List Nat) :
    Outcome (Strand × Nat) :=
  let writer := StrandWriter.new s
  match StrandWriter.write_message s writer (encodeItem key val) with
  | Outcome.ok (s2, w2) => Outcome.ok (s2, StrandWriter.get_pointer s2 w2)
  | Outcome.err e => Outcome.err e
  | Outcome.panicked => Outcome.panicked

/-! ## Index (src/index.rs)

`BTreeMap<Box<[u8]>, RwLock<FilePointer>>` is modelled as a
duplicate-free association list; the per-entry lock state is not
represented (all the operations below run to guard release). -/

/-- First-match association lookup (BTreeMap::get / contains_key over
unique keys). -/
def assocFind {β : Type} : List (List Nat × β) → List Nat → Option β
  | [], _ => none
  | p :: ps, k => if p.1 = k then some p.2 else assocFind ps k

/-- Replace the value of the first entry with key `k`
(`*self.guard = ptr` publishing into the slot). -/
def assocUpdate : List (List Nat × Nat) → List Nat → Nat →
    List (List Nat × Nat)
  | [], _, _ => []
  | p :: ps, k, v => if p.1 = k then (k, v) :: ps else p :: assocUpdate ps k v

/-- Remove the first entry with key `k` (BTreeMap::remove). -/
def assocErase : List (List Nat × Nat) → List Nat → List (List Nat × Nat)
  | [], _ => []
  | p :: ps, k => if p.1 = k then ps else p :: assocErase ps k

/-- Index::exists (src/index.rs 45-47): `contains_key` under the shared
lock. -/
def Index.existsKey (index : List (List Nat × Nat)) (key : List Nat) :
    Bool :=
  (assocFind index key).isSome

/-- Index::entry (src/index.rs 49-61): take the per-key write lock; when
the key is absent a fresh slot `(key, RwLock::new(0))` is inserted
before locking it.  Returns the guard's captured `value` (`Some ptr`
for an existing slot, `None` for a fresh one, src/index.rs 108-126) and
the map afterwards. -/
def Index.entry (index : List (List Nat × Nat)) (key : List Nat) :
    Option Nat × List (List Nat × Nat) :=
  match assocFind index key with
  | some ptr => (some ptr, index)
  | none => (none, index ++ [(key, 0)])

/-- IndexEntry::drop (src/index.rs 147-159): with `value = Some ptr` the
slot is updated to `ptr`; with `None` the slot is removed from the
map. -/
def IndexEntry.drop (index : List (List Nat × Nat)) (key : List Nat)
    (value : Option Nat) : List (List Nat × Nat) :=
  match value with
  | some ptr => assocUpdate index key ptr
  | none => assocErase index key

/-! ## Store (src/store.rs) -/

/-- The in-memory state behind a `Store` with a single-strand volume:
Volume::write always finds strand 0 free in a single-threaded run
(src/volume.rs 210-226), and Volume::read routes a pointer to the
strand containing it (src/volume.rs 184-208), so one strand suffices
for the per-key claims.  The read cache is an association list with
most recent entries in front (LRU eviction is not modelled). -/
structure StoreState where
  strand : Strand
  index : List (List Nat × Nat)
  cache : List (List Nat × List Nat)
  deleted : List Nat
  deriving Repr, DecidableEq

/-- Store::insert (src/store.rs 142-162): verify key and value, lock
the key, fail with ItemExists when present (the guard then republishes
the old pointer, a no-op), otherwise `write_item` and publish the
returned pointer through the guard's drop.  Stats updates are not
modelled.  Alongside the result, the post-state is returned. -/
def Store.insert (st : StoreState) (key val : List Nat) :
    Outcome Unit × StoreState :=
  match verify_key key with
  | Outcome.ok _ =>
    match verify_val val with
    | Outcome.ok _ =>
      match Index.entry st.index key with
      | (some _, _) => (Outcome.err Error.ItemExists, st)
      | (none, index1) =>
        match WriteItem.write st.strand key val with
        | Outcome.ok (strand2, ptr) =>
            (Outcome.ok (),
             { st with strand := strand2,
                       index := IndexEntry.drop index1 key (some ptr) })
        | Outcome.err e =>
            (Outcome.err e,
             { st with index := IndexEntry.drop index1 key none })
        | Outcome.panicked => (Outcome.panicked, st)
    | Outcome.err e => (Outcome.err e, st)
    | Outcome.panicked => (Outcome.panicked, st)
  | Outcome.err e => (Outcome.err e, st)
  | Outcome.panicked => (Outcome.panicked, st)

/-- Store::lookup (src/store.rs 108-125) with Store::lookup_item
(src/store.rs 371-378): verify the key, try the read cache, lock the
key; an empty slot is ItemNotFound (the guard's drop then removes the
temporary slot).  Otherwise Volume::read routes the pointer (panicking
when no strand contains it, src/volume.rs 201-203) and `read_item`
decodes the record at the pointer, inserts the DECODED key and value
into the cache, and copies the value into the caller's buffer
(`copy_val`, at most `bufLen` bytes).  Returns (bytes copied, bytes
placed in the buffer) and the post-state. -/
def Store.lookup (st : StoreState) (key : List Nat) (bufLen : Nat) :
    Outcome (Nat × List Nat) × StoreState :=
  match verify_key key with
  | Outcome.ok _ =>
    match assocFind st.cache key with
    | some v =>
        let n := min v.length bufLen
        (Outcome.ok (n, v.take n), st)
    | none =>
      match Index.entry st.index key with
      | (none, index1) =>
          (Outcome.err Error.ItemNotFound,
           { st with index := IndexEntry.drop index1 key none })
      | (some ptr, index1) =>
          if st.strand.start ≤ ptr ∧ ptr < st.strand.start + st.strand.capacity then
            let dec := decodeItemAt st.strand.data (ptr - st.strand.start)
            let n := min dec.2.length bufLen
            (Outcome.ok (n, dec.2.take n),
             { st with index := IndexEntry.drop index1 key (some ptr),
                       cache := (dec.1, dec.2) :: st.cache })
          else
            (Outcome.panicked,
             { st with index := IndexEntry.drop index1 key (some ptr) })
  | Outcome.err e => (Outcome.err e, st)
  | Outcome.panicked => (Outcome.panicked, st)

/-! ## Datastore-state snapshot and the open/close protocol
(src/serial/state.rs, src/volume.rs, src/store.rs) -/

/-- STATE_MAGIC: the snapshot signature constant (spec §6; the value is
generated into `serial_capnp`, outside `src/`). -/
def STATE_MAGIC : Nat := 0x53544154

/-- Modelled from the spec: the snapshot codec (§6; the source uses the
external capnp packed serialization).  Layout: signature, index entry
count, the entries (key length, key bytes, pointer), deleted count,
then the deleted pointers. -/
def encodeState (index : List (List Nat × Nat)) (deleted : List Nat) :
    List Nat :=
  le64 STATE_MAGIC ++ le64 index.length ++
  (index.foldr (fun p acc => le64 p.1.length ++ p.1 ++ le64 p.2 ++ acc) []) ++
  le64 deleted.length ++ deleted.foldr (fun p acc => le64 p ++ acc) []

/-- Decode `n` snapshot index entries starting at strand-relative
`off`; returns the entries and the offset after them. -/
def decodeIndexEntries (data : List (Nat × Nat)) :
    Nat → Nat → List (List Nat × Nat) × Nat
  | off, 0 => ([], off)
  | off, n + 1 =>
      let klen := de64 (readBytes data off 8)
      let key := readBytes data (off + 8) klen
      let ptr := de64 (readBytes data (off + 8 + klen) 8)
      let rest := decodeIndexEntries data (off + 16 + klen) n
      ((key, ptr) :: rest.1, rest.2)

/-- Decode `n` deleted pointers starting at strand-relative `off`. -/
def decodeDeleted (data : List (Nat × Nat)) :
    Nat → Nat → List Nat × Nat
  | off, 0 => ([], off)
  | off, n + 1 =>
      let ptr := de64 (readBytes data off 8)
      let rest := decodeDeleted data (off + 8) n
      (ptr :: rest.1, rest.2)

/-- DatastoreState::read (src/serial/state.rs 89-137): open a
StrandReader at `ptr`, check the signature (else Corrupt), rebuild the
index rejecting duplicate keys as Corrupt, rebuild the deleted set
rejecting duplicate pointers as Corrupt. -/
def DatastoreState.read (s : Strand) (ptr : Nat) :
    Outcome (List (List Nat × Nat) × List Nat) :=
  let off := ptr - s.start
  if de64 (readBytes s.data off 8) ≠ STATE_MAGIC then
    Outcome.err Error.Corrupt
  else
    let icount := de64 (readBytes s.data (off + 8) 8)
    let dec := decodeIndexEntries s.data (off + 16) icount
    let dcount := de64 (readBytes s.data dec.2 8)
    let ddec := decodeDeleted s.data (dec.2 + 8) dcount
    if ¬ (dec.1.map Prod.fst).Nodup then Outcome.err Error.Corrupt
    else if ¬ ddec.1.Nodup then Outcome.err Error.Corrupt
    else Outcome.ok (dec.1, ddec.1)

/-- An open Store together with the on-disk volume header: `header` is
the decoded content of device page 0, `none` while that page has never
been written (its bytes are then still zero and fail the signature
check on read). -/
structure OpenStore where
  header : Option VolumeHeaderData
  store : StoreState
  deriving Repr, DecidableEq

/-- The net effect of Volume::open in Create mode on a fresh memory
device (src/volume.rs 122-182): VolumeOpen::new only computes the
strand count, and no statement in Volume::open writes a volume header
to page 0 — only the per-strand headers are formatted
(src/strand.rs 71-78).  Page 0 keeps its zero content (`none`).  The
returned strand is strand 0 of the partition, formatted with
`offset = PAGE_SIZE`; the Strand::new assertions are modelled
separately by `Strand.newAsserts`. -/
def Volume.createNet (capacity strands : Nat) :
    Option VolumeHeaderData × Strand :=
  (none, ⟨0, PAGE_SIZE, align (capacity / strands), PAGE_SIZE, []⟩)

/-- Store::write_state (src/store.rs 385-393), run by Store::drop
(src/store.rs 396-400): snapshot the index and deleted set and
`state.write(strand)` it (src/serial/state.rs 139-144), which builds a
StrandWriter, clears `update_offset`, writes the message and returns
`Ok(())`.  No FilePointer is captured from the writer and the volume
header is not rewritten, so `header` passes through unchanged. -/
def Store.write_state (os : OpenStore) : Outcome OpenStore :=
  let s := os.store.strand
  let bs := encodeState os.store.index os.store.deleted
  let w : StrandWriter := { StrandWriter.new s with update_offset := false }
  match StrandWriter.write_message s w bs with
  | Outcome.ok (s2, _) =>
      Outcome.ok { os with store := { os.store with strand := s2 } }
  | Outcome.err e => Outcome.err e
  | Outcome.panicked => Outcome.panicked

/-- The Read-mode open protocol (src/volume.rs 123-182 with
VolumeOpen::read, 76-86): decode and validate page 0 as a VolumeHeader
— a never-written page is all zeros and fails the signature check, so
Corrupt — then with `state_ptr = 0` start from the empty state
(VolumeState::default, src/volume.rs 103-117); otherwise route the
pointer through Volume::read (panic when no strand contains it) and
restore via DatastoreState::read. -/
def Volume.openRead (header : Option VolumeHeaderData) (strand : Strand)
    (currentMajor : Nat) :
    Outcome (List (List Nat × Nat) × List Nat) :=
  match header with
  | none => Outcome.err Error.Corrupt
  | some h =>
    match VolumeHeader.readCheck currentMajor h with
    | Outcome.ok h2 =>
        if h2.state_ptr = 0 then Outcome.ok ([], [])
        else if strand.start ≤ h2.state_ptr ∧
                h2.state_ptr < strand.start + strand.capacity then
          DatastoreState.read strand h2.state_ptr
        else Outcome.panicked
    | Outcome.err e => Outcome.err e
    | Outcome.panicked => Outcome.panicked

/-! ## Concrete stores used by the theorems -/

/-- A store freshly created on a 4 MiB device with 4 strands (strand 0
shown; capacity align(2^22 / 4) = 2^20). -/
def c1Open : OpenStore :=
  { header := (Volume.createNet (2 ^ 22) 4).1,
    store := { strand := (Volume.createNet (2 ^ 22) 4).2,
               index := [], cache := [], deleted := [] } }

/-- `c1Open`'s store after inserting key `[1]` with value `[2]`. -/
def c1St1 : StoreState := (Store.insert c1Open.store [1] [2]).2

/-- The store after the close protocol (the fallback arm is
unreachable; the close theorem pins the Outcome.ok result). -/
def c1Closed : OpenStore :=
  match Store.write_state { header := c1Open.header, store := c1St1 } with
  | Outcome.ok o => o
  | _ => { header := some ⟨0, 0, 0, 0, 0, 0⟩, store := c1St1 }

/-- A pre-existing valid volume header for 4 strands with no snapshot
(`state_ptr = 0`), for the second close scenario. -/
def c1Header4 : VolumeHeaderData := ⟨VOLUME_MAGIC, 0, 1, 0, 4, 0⟩

/-- Close of the same store under the pre-existing header
`c1Header4`. -/
def c1ClosedB : OpenStore :=
  match Store.write_state { header := some c1Header4, store := c1St1 } with
  | Outcome.ok o => o
  | _ => { header := none, store := c1St1 }

/-- A fresh single-strand store state: strand at device offset 4096
with capacity 262144, append cursor at PAGE_SIZE, nothing written. -/
def c2St0 : StoreState := ⟨⟨0, 4096, 262144, 4096, []⟩, [], [], []⟩

/-- `c2St0` after inserting key `[10]` with value `[20]`. -/
def c2St1 : StoreState := (Store.insert c2St0 [10] [20]).2

end StrikingDB

namespace StrikingDB

/-- Claim C3: a key of 131073 bytes (one more than 128 KiB) is accepted
by `Store::verify_key`, because the source sets `MAX_KEY_LEN` to
`128 * 1024 * 1024` (128 MiB) while documenting it as 128 KiB; the empty
key is still rejected as the claim says. -/
theorem verify_key_accepts_131073_byte_key :
    verify_key (List.replicate 131073 1) = Outcome.ok () ∧
    131073 > 128 * 1024 ∧
    verify_key [] = Outcome.err Error.InvalidKey := by
  refine ⟨?_, by norm_num, by simp [verify_key]⟩
  rw [verify_key, if_neg]
  rintro (h | h)
  · have h2 := congrArg List.length h
    rw [List.length_replicate] at h2
    exact absurd h2 (by norm_num)
  · rw [List.length_replicate] at h
    exact absurd h (by norm_num [MAX_KEY_LEN])

/-- Claim C5: a strand count of exactly MIN_STRANDS (= 2) is rejected
on both paths, contrary to the claim that the range is inclusive:
`VolumeOpen::new` with `options.strands = Some(2)` returns BadArgument
(the source tests `x <= MIN_STRANDS`), and `VolumeHeader::read` rejects
a header whose strands field is 2 as Corrupt (`strands <= MIN_STRANDS`),
while 3 strands pass both. -/
theorem min_strands_boundary_rejected :
    VolumeOpen.new (2 ^ 30) 4 ⟨OpenMode.Create, some 2, none, false⟩ =
      Outcome.err Error.BadArgument ∧
    VolumeHeader.readCheck 0 ⟨VOLUME_MAGIC, 0, 1, 0, 2, 0⟩ =
      Outcome.err Error.Corrupt ∧
    VolumeOpen.new (2 ^ 30) 4 ⟨OpenMode.Create, some 3, none, false⟩ =
      Outcome.ok ⟨3, none, false⟩ ∧
    VolumeHeader.readCheck 0 ⟨VOLUME_MAGIC, 0, 1, 0, 3, 0⟩ =
      Outcome.ok ⟨VOLUME_MAGIC, 0, 1, 0, 3, 0⟩ := by
  refine ⟨?_, ?_, ?_, ?_⟩ <;> decide

/-- Claim C6: on a 4 MiB device split into 4 strands the partition
computed by Volume::open violates the claimed invariants: the last
strand ends one page past the device (3149824 + 1048576 > 2^22), the
strand capacities sum to the full device capacity (not at most
capacity − PAGE_SIZE), and the bounds assertion in Strand::new
(written `start + capacity >= device.capacity()`) fires on strand 0. -/
theorem strand_partition_exceeds_device :
    volumeRegions (2 ^ 22) 4 =
      [⟨4096, 1048576⟩, ⟨1052672, 1048576⟩,
       ⟨2101248, 1048576⟩, ⟨3149824, 1048576⟩] ∧
    3149824 + 1048576 > 2 ^ 22 ∧
    ((volumeRegions (2 ^ 22) 4).map StrandRegion.len).sum = 2 ^ 22 ∧
    ¬ (2 ^ 22 ≤ 2 ^ 22 - PAGE_SIZE) ∧
    Strand.newAsserts (2 ^ 22) 4096 1048576 = false := by
  refine ⟨by decide, by decide, by decide, by decide, by decide⟩

/-- Claim C7: the device bounds check is strict, not inclusive:
`check_trim` asserts `off + len < capacity`, so the full-device trim
issued by Truncate mode (`device.trim(0, device.capacity())`) always
fails the assertion, here on a 1 MiB device whose offset and length are
exact TRIM_SIZE multiples. -/
theorem check_trim_rejects_full_device_trim :
    truncateModeTrim (2 ^ 20) = Outcome.panicked ∧
    (2 ^ 20) % TRIM_SIZE = 0 ∧
    check_trim (2 ^ 20) 0 TRIM_SIZE = Outcome.ok () := by
  refine ⟨by decide, by decide, by decide⟩

/-- Claim C8 counterexample: for the strand with start 4096 and
capacity 8192, `contains_ptr (start + capacity) = contains_ptr 12288`
returns true, not false as the claim's half-open range requires (the
source comparison is `ptr <= self.start + self.capacity`). -/
theorem contains_ptr_at_end_true :
    Strand.contains_ptr ⟨0, 4096, 8192, 4096, []⟩ (4096 + 8192) = true := by
  decide

/-- Claim C8 as amended: `contains_ptr` decides the closed range
`start ≤ p ≤ start + capacity`, so in particular it is true at
`start + capacity`. -/
theorem contains_ptr_iff_closed_range (s : Strand) (ptr : Nat) :
    s.contains_ptr ptr = true ↔
      s.start ≤ ptr ∧ ptr ≤ s.start + s.capacity := by
  simp [Strand.contains_ptr]

/-- Claim C4: `WriteItem::write` returns `writer.get_pointer()` queried
AFTER serializing the record, i.e. the address one past the record's
last byte, not the address of its first byte: on a strand starting at
4096 with append offset 4096, the pointer before writing is 8192, the
record `{[1], [2]}` serializes to 18 bytes, and the returned pointer is
8210 = 8192 + 18. -/
theorem write_item_returns_end_pointer :
    (match WriteItem.write c2St0.strand [1] [2] with
     | Outcome.ok (_, p) => p
     | _ => 0) = 8210 ∧
    StrandWriter.get_pointer c2St0.strand (StrandWriter.new c2St0.strand)
      = 8192 ∧
    (encodeItem [1] [2]).length = 18 ∧
    (8210 : Nat) = 8192 + 18 ∧
    ¬ ((8210 : Nat) = 8192) := by
  refine ⟨by decide, by decide, by decide, by decide, by decide⟩

/-- Claim C2: the single-key round trip fails.  On a fresh store,
inserting key [10] with the one-byte value [20] succeeds, but the
pointer published to the index is the END of the record
(8210 = strand.start + strand.offset + 18, the record's serialized
length, since `WriteItem::write` reads the cursor after serializing),
so the following lookup with a 1-byte buffer decodes unwritten zero
bytes past the record and returns 0 copied bytes, not len(v) = 1 with
the value [20]. -/
theorem insert_lookup_roundtrip_fails :
    (Store.insert c2St0 [10] [20]).1 = Outcome.ok () ∧
    assocFind c2St1.index [10] = some 8210 ∧
    c2St0.strand.start + c2St0.strand.offset +
      (encodeItem [10] [20]).length = 8210 ∧
    (Store.lookup c2St1 [10] 1).1 = Outcome.ok (0, []) ∧
    ¬ ((0 : Nat) = ([20] : List Nat).length) := by
  refine ⟨by decide, by decide, by decide, by decide, by decide⟩

/-- Claim C1: the close protocol does not persist the state pointer.
After creating a store on a fresh 4 MiB device and inserting key [1]
(which succeeds and is indexed), `Store::write_state` writes the
snapshot into a strand but discards the write position
(`DatastoreState::write` returns unit) and never touches the volume
header — Create mode never even writes one — so a reopen in Read mode
fails with Corrupt on the zero page 0; and under a pre-existing valid
header the `state_ptr` is still 0 after the close, so the reopen
restores the empty index, in which the inserted key does not exist. -/
theorem close_protocol_loses_state_ptr :
    (Store.insert c1Open.store [1] [2]).1 = Outcome.ok () ∧
    Index.existsKey c1St1.index [1] = true ∧
    Store.write_state { header := c1Open.header, store := c1St1 } =
      Outcome.ok c1Closed ∧
    c1Closed.header = none ∧
    Volume.openRead c1Closed.header c1Closed.store.strand 0 =
      Outcome.err Error.Corrupt ∧
    Store.write_state { header := some c1Header4, store := c1St1 } =
      Outcome.ok c1ClosedB ∧
    c1ClosedB.header = some c1Header4 ∧
    Volume.openRead c1ClosedB.header c1ClosedB.store.strand 0 =
      Outcome.ok ([], []) ∧
    Index.existsKey [] [1] = false := by
  refine ⟨by decide, by decide, by decide, by decide, by decide,
          by decide, by decide, by decide, by decide⟩

/-- If a key is absent from an association list, erasing it after
appending a fresh slot for it restores the original list. -/
theorem assocErase_append_self (l : List (List Nat × Nat)) (k : List Nat)
    (h : assocFind l k = none) : assocErase (l ++ [(k, 0)]) k = l := by
  induction l with
  | nil => simp [assocErase]
  | cons p ps ih =>
      simp only [assocFind] at h
      by_cases hk : p.1 = k
      · rw [if_pos hk] at h
        simp at h
      · rw [if_neg hk] at h
        simp only [List.cons_append, assocErase, if_neg hk, List.append_eq]
        rw [ih h]

/-- Claim C10: a lookup of a key absent from the index (with a valid
key and a cache miss, the only way it can return ItemNotFound) returns
ItemNotFound and leaves the index exactly as it was — the temporary
locked slot `(key, 0)` inserted by `Index::entry` is removed again by
the entry guard's drop with an empty value — so `exists` is false
afterwards. -/
theorem lookup_absent_key_leaves_index (st : StoreState) (key : List Nat)
    (bufLen : Nat)
    (hkey : verify_key key = Outcome.ok ())
    (hcache : assocFind st.cache key = none)
    (hnot : Index.existsKey st.index key = false) :
    (Store.lookup st key bufLen).1 = Outcome.err Error.ItemNotFound ∧
    (Store.lookup st key bufLen).2.index = st.index ∧
    Index.existsKey (Store.lookup st key bufLen).2.index key = false := by
  have hfind : assocFind st.index key = none := by
    cases hf : assocFind st.index key with
    | none => rfl
    | some p =>
        rw [Index.existsKey, hf] at hnot
        simp at hnot
  have hlook : Store.lookup st key bufLen =
      (Outcome.err Error.ItemNotFound,
       { st with index := assocErase (st.index ++ [(key, 0)]) key }) := by
    simp only [Store.lookup, hkey, hcache, Index.entry, hfind,
               IndexEntry.drop]
  rw [hlook]
  refine ⟨rfl, ?_, ?_⟩
  · exact assocErase_append_self st.index key hfind
  · show Index.existsKey (assocErase (st.index ++ [(key, 0)]) key) key = false
    rw [assocErase_append_self st.index key hfind]
    exact hnot

/-- Witness for claim C10's theorem at the fresh store `c2St0` and key
`[5]`. -/
theorem lookup_absent_key_leaves_index_witness :
    (Store.lookup c2St0 [5] 0).1 = Outcome.err Error.ItemNotFound ∧
    (Store.lookup c2St0 [5] 0).2.index = c2St0.index ∧
    Index.existsKey (Store.lookup c2St0 [5] 0).2.index [5] = false :=
  lookup_absent_key_leaves_index c2St0 [5] 0 (by decide) (by decide)
    (by decide)

/-- Claim C9: `Deleted::put` behaves opposite to the claim: adding a
pointer that is NOT yet in the set trips the freshness assertion
(`BTreeSet::insert` returns true for a fresh value and the source
asserts the negation of that return value), while adding an
already-present pointer passes the assertion and leaves the set
unchanged. -/
theorem deleted_put_panics_on_fresh_pointer :
    Deleted.put [] 42 = Outcome.panicked ∧
    Deleted.put [7] 42 = Outcome.panicked ∧
    Deleted.put [42] 42 = Outcome.ok [42] := by
  refine ⟨by decide, by decide, by decide⟩

end StrikingDB
